import Mathlib

/-!
Verification of the Panel Orchestration Loop of the ADK Platform demo
(src/index.tsx). The embedding models the mutable module-level state
(currentView, isRunning, the infinite-loop toggle, loopContext, the header
status line and the setTimeout chain of handleAutonomousTransition) as an
explicit state record, and the event-driven control flow (button clicks,
task completion, timer fire, toggle changes) as a step function on that
state. Task bodies only read loopContext and call the remote Action
Executor; their outcome (normal return or thrown exception) is supplied as
an input of the task-completion event, and the random draw of
handleAutonomousTransition is supplied as a numeric input. Every Action
Executor invocation happens inside a started task, so the count of task
starts bounds executor activity: no new task start means no new executor
call.
-/

namespace NimbusLoop

/-- Panel identifiers: the six views dispatched by the generate-button
click handler in src/index.tsx. -/
inductive View
  | terminal
  | crm
  | ide
  | deploy
  | marketing
  | nano
deriving DecidableEq, Repr

/-- SharedContext: the mutable loopContext record of src/index.tsx. -/
structure LoopContext where
  feature : String
  userCount : Nat
  infrastructure : String
deriving DecidableEq, Repr

/-- Initial loopContext value from src/index.tsx. -/
def initialContext : LoopContext :=
  { feature := "Token Asset Standard (TAS-1)"
    userCount := 0
    infrastructure := "Testnet Alpha" }

/-- Status kinds accepted by setStatus in src/index.tsx. -/
inductive StatusKind
  | idle
  | busy
  | error
  | success
deriving DecidableEq, Repr

/-- A Status Reporter event: the (type, message) pair passed to setStatus;
the header element stores the last such event. -/
structure StatusEvent where
  kind : StatusKind
  msg : String
deriving DecidableEq, Repr

/-- The successor view chosen by the switch statement of
handleAutonomousTransition; the default branch sends every other view
(only terminal) to ide. -/
def nextView : View → View
  | .ide => .deploy
  | .deploy => .marketing
  | .marketing => .nano
  | .nano => .crm
  | .crm => .ide
  | .terminal => .ide

/-- The context mutation performed by handleAutonomousTransition when the
completed view is v. The nano branch adds Math.floor(Math.random() * 150)
+ 50 to userCount; r stands for the value of Math.floor(Math.random() *
150), an integer in [0, 149]. The crm branch overwrites feature and
infrastructure with fixed strings. All other branches leave the context
untouched. -/
def transitionMutate (v : View) (r : Nat) (c : LoopContext) : LoopContext :=
  match v with
  | .nano => { c with userCount := c.userCount + (r + 50) }
  | .crm =>
      { c with
        feature := "Layer 2 Scaling (Optimism)"
        infrastructure := "Mainnet + L2" }
  | _ => c

/-- The setStatus call performed by handleAutonomousTransition for the
completed view v; the default (terminal) branch performs none. -/
def transitionStatus (v : View) : Option StatusEvent :=
  match v with
  | .ide => some ⟨.success, "Security Scan Passed. Initializing Deployment..."⟩
  | .deploy => some ⟨.success, "Deployed. Triggering Marketing Agent..."⟩
  | .marketing => some ⟨.success, "Assets Created. Launching Vision Lab..."⟩
  | .nano => some ⟨.success, "Campaign Live. Inbound Leads Detected..."⟩
  | .crm => some ⟨.success, "Scaling Architecture for User Growth..."⟩
  | .terminal => none

/-- The first setStatus call of each view task (its busy banner). -/
def taskBusyStatus (v : View) (c : LoopContext) : StatusEvent :=
  match v with
  | .terminal => ⟨.busy, "Generating Narrative Log..."⟩
  | .crm => ⟨.busy, "Syncing Inbound Leads..."⟩
  | .ide => ⟨.busy, "Architecting: " ++ c.feature⟩
  | .deploy => ⟨.busy, "Pushing to Production..."⟩
  | .marketing => ⟨.busy, "Marketing Agent Active..."⟩
  | .nano => ⟨.busy, "Nano Studio Baking..."⟩

/-- The final setStatus call of each view task when it returns normally. -/
def taskDoneStatus (v : View) (c : LoopContext) : StatusEvent :=
  match v with
  | .terminal => ⟨.idle, "Log Complete"⟩
  | .crm => ⟨.idle, "Pipeline Synced"⟩
  | .ide => ⟨.idle, "Build Complete"⟩
  | .deploy => ⟨.success, "Deployed to " ++ c.infrastructure⟩
  | .marketing => ⟨.idle, "Campaign Assets Ready"⟩
  | .nano => ⟨.idle, "Studio Idle"⟩

/-- Outcome of one task invocation as seen by the click handler: either
the awaited task returned (success) or it threw and the catch block ran
(failure). -/
inductive Outcome
  | success
  | failure
deriving DecidableEq, Repr

/-- The outstanding setTimeout of the autonomous chain: the 1500 ms
transition timer scheduled by handleAutonomousTransition (carrying the
captured nextView), or the nested 500 ms timer that re-clicks the
generate button. -/
inductive Pending
  | transitionFire (next : View)
  | clickFire
deriving DecidableEq, Repr

/-- The module-level mutable state of src/index.tsx that the orchestration
loop touches, plus the outstanding timer of the autonomous chain and a
counter of task starts (every Action Executor invocation happens inside a
started task). latchedLoop is the isInfiniteLoop variable, latched from
the toggle at click time; toggleChecked is the live checkbox value that
the transition timer re-reads at fire time. -/
structure MachState where
  currentView : View
  isRunning : Bool
  latchedLoop : Bool
  toggleChecked : Bool
  loopContext : LoopContext
  status : StatusEvent
  pending : Option Pending
  tasksStarted : Nat
deriving DecidableEq, Repr

/-- The generate-button click handler up to its first await: if isRunning
it returns at once, otherwise it sets isRunning, latches the toggle into
isInfiniteLoop, and the selected view task begins (posting its busy
status and invoking the Action Executor). -/
def startClick (s : MachState) : MachState :=
  if s.isRunning then s
  else
    { s with
      isRunning := true
      latchedLoop := s.toggleChecked
      tasksStarted := s.tasksStarted + 1
      status := taskBusyStatus s.currentView s.loopContext }

/-- handleAutonomousTransition: computes nextView, posts the transition
status (none for terminal), applies the context mutation with random
draw r, and schedules the 1500 ms transition timer. -/
def handleAutonomousTransition (r : Nat) (s : MachState) : MachState :=
  { s with
    loopContext := transitionMutate s.currentView r s.loopContext
    status := (transitionStatus s.currentView).getD s.status
    pending := some (.transitionFire (nextView s.currentView)) }

/-- Completion of the awaited task in the click handler: the catch block
posts the error status on failure (on success the task itself posted its
final status just before returning); the finally block clears isRunning
and, when isInfiniteLoop was latched, runs handleAutonomousTransition. -/
def finishTask (o : Outcome) (r : Nat) (s : MachState) : MachState :=
  if s.isRunning then
    let s1 : MachState :=
      { s with
        isRunning := false
        status :=
          match o with
          | .success => taskDoneStatus s.currentView s.loopContext
          | .failure => ⟨.error, "Process Failed"⟩ }
    if s.latchedLoop then handleAutonomousTransition r s1 else s1
  else s

/-- External events driving the machine: a generate-button click, the
completion of the running task with outcome o and random draw r, the
firing of the 1500 ms transition timer (which re-reads the live toggle:
the cancellation point), the firing of the nested 500 ms click timer, and
a change of the infinite-loop checkbox (whose handler clicks the button
when it was just checked and nothing is running). -/
inductive Event
  | click
  | finish (o : Outcome) (r : Nat)
  | fireTransition
  | fireClick
  | setToggle (b : Bool)
deriving DecidableEq, Repr

/-- One event step of the orchestration machine. -/
def step : Event → MachState → MachState
  | .click, s => startClick s
  | .finish o r, s => finishTask o r s
  | .fireTransition, s =>
      match s.pending with
      | some (.transitionFire n) =>
          if s.toggleChecked then
            { s with currentView := n, pending := some .clickFire }
          else
            { s with pending := none }
      | _ => s
  | .fireClick, s =>
      match s.pending with
      | some .clickFire => startClick { s with pending := none }
      | _ => s
  | .setToggle b, s =>
      let s1 : MachState := { s with toggleChecked := b }
      if b && !s1.isRunning then startClick s1 else s1

/-- Folding a list of events through the step function. -/
def run (es : List Event) (s : MachState) : MachState :=
  es.foldl (fun t e => step e t) s

/-- Events that are not a fresh user trigger: everything except a manual
button click and checking the toggle on. -/
def nonTriggerEvent : Event → Bool
  | .click => false
  | .setToggle b => !b
  | _ => true

/-- Derived pipeline counts rendered by runCRMSimulation from
loopContext.userCount: Math.floor of userCount times 0.1, 0.05 and 0.02,
modelled with exact rational arithmetic. -/
def crmPipelineCounts (u : Nat) : Nat × Nat × Nat :=
  (⌊(u : ℚ) * 0.1⌋₊, ⌊(u : ℚ) * 0.05⌋₊, ⌊(u : ℚ) * 0.02⌋₊)

/-- Concrete state with a task in flight on the terminal view. -/
def runningState : MachState :=
  { currentView := .terminal
    isRunning := true
    latchedLoop := false
    toggleChecked := false
    loopContext := initialContext
    status := ⟨.busy, "Generating Narrative Log..."⟩
    pending := none
    tasksStarted := 1 }

/-- Concrete state between steps of an active autonomous rotation: the
ide task finished and the 1500 ms transition timer toward deploy is
outstanding. -/
def awaitingState : MachState :=
  { currentView := .ide
    isRunning := false
    latchedLoop := true
    toggleChecked := true
    loopContext := initialContext
    status := ⟨.success, "Security Scan Passed. Initializing Deployment..."⟩
    pending := some (.transitionFire .deploy)
    tasksStarted := 1 }

/-- Concrete state with the ide task in flight in continuous mode. -/
def loopFailState : MachState :=
  { currentView := .ide
    isRunning := true
    latchedLoop := true
    toggleChecked := true
    loopContext := initialContext
    status := ⟨.busy, "Architecting: Token Asset Standard (TAS-1)"⟩
    pending := none
    tasksStarted := 1 }

/-- Concrete state with the nano task in flight in continuous mode. -/
def nanoFailState : MachState :=
  { currentView := .nano
    isRunning := true
    latchedLoop := true
    toggleChecked := true
    loopContext := initialContext
    status := ⟨.busy, "Nano Studio Baking..."⟩
    pending := none
    tasksStarted := 1 }

/-- Concrete state with the crm task in flight in manual mode. -/
def manualFailState : MachState :=
  { currentView := .crm
    isRunning := true
    latchedLoop := false
    toggleChecked := false
    loopContext := initialContext
    status := ⟨.busy, "Syncing Inbound Leads..."⟩
    pending := none
    tasksStarted := 1 }

/-- Concrete state with the deploy task in flight in continuous mode. -/
def deployLoopState : MachState :=
  { currentView := .deploy
    isRunning := true
    latchedLoop := true
    toggleChecked := true
    loopContext := initialContext
    status := ⟨.busy, "Pushing to Production..."⟩
    pending := none
    tasksStarted := 2 }

/-- A quiescent machine (nothing running, no outstanding timer, toggle
off) stays quiescent under any event that is not a fresh user trigger,
and starts no task. -/
theorem quiescent_step (s : MachState) (e : Event)
    (hr : s.isRunning = false) (hp : s.pending = none)
    (ht : s.toggleChecked = false) (he : nonTriggerEvent e = true) :
    (step e s).isRunning = false ∧ (step e s).pending = none ∧
      (step e s).toggleChecked = false ∧
      (step e s).tasksStarted = s.tasksStarted ∧
      (step e s).currentView = s.currentView := by
  cases e with
  | click => simp [nonTriggerEvent] at he
  | finish o r => simp [step, finishTask, hr, hp, ht]
  | fireTransition => simp [step, hr, hp, ht]
  | fireClick => simp [step, hr, hp, ht]
  | setToggle b =>
      simp only [nonTriggerEvent, Bool.not_eq_true'] at he
      subst he
      simp [step, startClick, hr, hp, ht]

/-- Iterated form of quiescent_step over a whole event list. -/
theorem quiescent_run (es : List Event) (s : MachState)
    (hr : s.isRunning = false) (hp : s.pending = none)
    (ht : s.toggleChecked = false)
    (hes : ∀ e ∈ es, nonTriggerEvent e = true) :
    (run es s).isRunning = false ∧ (run es s).pending = none ∧
      (run es s).toggleChecked = false ∧
      (run es s).tasksStarted = s.tasksStarted ∧
      (run es s).currentView = s.currentView := by
  induction es generalizing s with
  | nil => exact ⟨hr, hp, ht, rfl, rfl⟩
  | cons e es ih =>
      have he : nonTriggerEvent e = true := hes e (List.mem_cons_self e es)
      have hstep := quiescent_step s e hr hp ht he
      have hrest := ih (step e s) hstep.1 hstep.2.1 hstep.2.2.1
        (fun x hx => hes x (List.mem_cons_of_mem e hx))
      refine ⟨hrest.1, hrest.2.1, hrest.2.2.1, ?_, ?_⟩
      · rw [run, List.foldl_cons]
        exact hrest.2.2.2.1.trans hstep.2.2.2.1
      · rw [run, List.foldl_cons]
        exact hrest.2.2.2.2.trans hstep.2.2.2.2

/-- C1: a generate-button click while the running flag is true is a
no-op: the whole machine state (RunState, SharedContext, status, timer)
is unchanged and no task (hence no Action Executor call) is started. -/
theorem click_while_running_is_noop (s : MachState) (h : s.isRunning = true) :
    step .click s = s := by
  simp [step, startClick, h]

/-- Witness for C1 at a concrete in-flight state. -/
theorem click_while_running_is_noop_check :
    runningState.isRunning = true ∧ step .click runningState = runningState :=
  ⟨rfl, click_while_running_is_noop runningState rfl⟩

/-- C2: unchecking the toggle while the 1500 ms transition timer is
outstanding cancels the rotation: when the timer fires, the next Running
state is not entered (the view does not switch, the running flag stays
false, no task starts), the timer chain is gone, and any further
sequence of non-trigger events starts no task either. -/
theorem cancellation_prevents_next_run (s : MachState) (n : View)
    (es : List Event)
    (hp : s.pending = some (.transitionFire n)) (hr : s.isRunning = false)
    (hes : ∀ e ∈ es, nonTriggerEvent e = true) :
    (step .fireTransition (step (.setToggle false) s)).isRunning = false ∧
      (step .fireTransition (step (.setToggle false) s)).pending = none ∧
      (step .fireTransition (step (.setToggle false) s)).currentView =
        s.currentView ∧
      (step .fireTransition (step (.setToggle false) s)).tasksStarted =
        s.tasksStarted ∧
      (run es (step .fireTransition (step (.setToggle false) s))).isRunning =
        false ∧
      (run es (step .fireTransition (step (.setToggle false) s))).tasksStarted =
        s.tasksStarted := by
  have h1 : step (.setToggle false) s = { s with toggleChecked := false } := by
    simp [step, startClick]
  have h2 : step .fireTransition ({ s with toggleChecked := false }) =
      { s with toggleChecked := false, pending := none } := by
    simp [step, hp]
  rw [h1, h2]
  have hq := quiescent_run es { s with toggleChecked := false, pending := none }
    hr rfl rfl hes
  exact ⟨hr, rfl, rfl, rfl, hq.1, hq.2.2.2.1⟩

/-- Witness for C2 at a concrete awaiting-transition state and a concrete
tail of non-trigger events. -/
theorem cancellation_prevents_next_run_check :
    awaitingState.pending = some (.transitionFire .deploy) ∧
      awaitingState.isRunning = false ∧
      (∀ e ∈ [Event.finish .success 0, Event.fireTransition, Event.fireClick],
        nonTriggerEvent e = true) ∧
      (run [Event.finish .success 0, Event.fireTransition, Event.fireClick]
          (step .fireTransition (step (.setToggle false) awaitingState))).tasksStarted =
        awaitingState.tasksStarted := by
  refine ⟨rfl, rfl, by decide, ?_⟩
  exact (cancellation_prevents_next_run awaitingState .deploy
    [Event.finish .success 0, Event.fireTransition, Event.fireClick]
    rfl rfl (by decide)).2.2.2.2.2

/-- C3 counterexample: a task that fails in continuous mode does set the
error status in the catch block, but the finally block immediately runs
handleAutonomousTransition, whose setStatus overwrites it with the
transition's success banner — so after the invocation completes the last
Status Reporter event is a success event, not an Error event. -/
theorem failure_status_overwritten_in_loop :
    loopFailState.isRunning = true ∧
      (step (.finish .failure 0) loopFailState).status =
        ⟨.success, "Security Scan Passed. Initializing Deployment..."⟩ ∧
      (step (.finish .failure 0) loopFailState).status.kind ≠ .error := by
  refine ⟨rfl, rfl, by decide⟩

/-- C3 (amended): after a task invocation completes, the last Status
Reporter event reflects the true outcome provided continuous mode was not
latched for that invocation: a successful task never leaves an error
event (in any mode), and a failed task leaves an Error event when
continuous mode is off; with continuous mode latched, the error event of
a failure is immediately superseded by the autonomous transition's
success status. -/
theorem status_reflects_last_outcome (s : MachState) (r : Nat)
    (hr : s.isRunning = true) :
    (step (.finish .success r) s).status.kind ≠ .error ∧
      (s.latchedLoop = false →
        (step (.finish .failure r) s).status.kind = .error) := by
  constructor
  · cases hl : s.latchedLoop <;>
      cases hv : s.currentView <;>
        simp [step, finishTask, handleAutonomousTransition, transitionStatus,
          taskDoneStatus, hr, hl, hv]
  · intro hl
    simp [step, finishTask, hr, hl]

/-- Witness for C3 (amended) at a concrete manual-mode state. -/
theorem status_reflects_last_outcome_check :
    manualFailState.isRunning = true ∧ manualFailState.latchedLoop = false ∧
      (step (.finish .success 3) manualFailState).status.kind ≠ .error ∧
      (step (.finish .failure 3) manualFailState).status.kind = .error := by
  refine ⟨rfl, rfl, ?_, ?_⟩
  · exact (status_reflects_last_outcome manualFailState 3 rfl).1
  · exact (status_reflects_last_outcome manualFailState 3 rfl).2 rfl

/-- C4: in continuous mode a task Failure drives exactly the same
post-task path as a Success: the finally block runs
handleAutonomousTransition either way, so the same 1500 ms transition
timer toward the same statically chosen successor is scheduled, the same
context mutation is applied, the running flag is cleared, and no task is
re-invoked instantly. -/
theorem failure_still_schedules_successor (s : MachState) (r : Nat)
    (hr : s.isRunning = true) (hl : s.latchedLoop = true) :
    (step (.finish .failure r) s).pending =
        some (.transitionFire (nextView s.currentView)) ∧
      (step (.finish .failure r) s).pending =
        (step (.finish .success r) s).pending ∧
      (step (.finish .failure r) s).loopContext =
        (step (.finish .success r) s).loopContext ∧
      (step (.finish .failure r) s).currentView =
        (step (.finish .success r) s).currentView ∧
      (step (.finish .failure r) s).isRunning = false ∧
      (step (.finish .failure r) s).tasksStarted = s.tasksStarted := by
  simp [step, finishTask, handleAutonomousTransition, hr, hl]

/-- Witness for C4: a simulated failure at deploy still schedules the
transition toward marketing. -/
theorem failure_still_schedules_successor_check :
    deployLoopState.isRunning = true ∧ deployLoopState.latchedLoop = true ∧
      (step (.finish .failure 0) deployLoopState).pending =
        some (.transitionFire .marketing) := by
  refine ⟨rfl, rfl, ?_⟩
  exact (failure_still_schedules_successor deployLoopState 0 rfl rfl).1

/-- C5 counterexample: with continuous mode latched, a failed nano task
ends with SharedContext.userCount increased (the transition's growth
mutation ran in the finally block) and with a success status instead of
an Error event. -/
theorem failure_isolation_fails_in_loop :
    nanoFailState.isRunning = true ∧
      (step (.finish .failure 0) nanoFailState).loopContext.userCount ≠
        nanoFailState.loopContext.userCount ∧
      (step (.finish .failure 0) nanoFailState).status.kind ≠ .error := by
  refine ⟨rfl, by decide, by decide⟩

/-- C5 (amended): when continuous mode is not latched, a task failure
leaves the Status Reporter showing the Error event, the running flag
false, and SharedContext exactly equal to its pre-task value; with
continuous mode latched the failing task itself still mutates nothing,
but the subsequent autonomous transition applies its own mutation and
success status. -/
theorem failure_isolation_manual_mode (s : MachState) (r : Nat)
    (hr : s.isRunning = true) (hl : s.latchedLoop = false) :
    (step (.finish .failure r) s).status = ⟨.error, "Process Failed"⟩ ∧
      (step (.finish .failure r) s).isRunning = false ∧
      (step (.finish .failure r) s).loopContext = s.loopContext := by
  simp [step, finishTask, hr, hl]

/-- Witness for C5 (amended) at a concrete manual-mode state. -/
theorem failure_isolation_manual_mode_check :
    manualFailState.isRunning = true ∧ manualFailState.latchedLoop = false ∧
      (step (.finish .failure 0) manualFailState).loopContext =
        manualFailState.loopContext ∧
      (step (.finish .failure 0) manualFailState).status =
        ⟨.error, "Process Failed"⟩ := by
  refine ⟨rfl, rfl, ?_, ?_⟩
  · exact (failure_isolation_manual_mode manualFailState 0 rfl rfl).2.2
  · exact (failure_isolation_manual_mode manualFailState 0 rfl rfl).1

/-- C6: the successor map is total over the registered panel set (it is a
total function on View) and following successors from any panel lands in
the ide-deploy-marketing-nano-crm cycle and keeps cycling with period
five — no dead end and no stalling. -/
theorem transition_graph_total_and_cyclic (v : View) :
    nextView^[5] (nextView v) = nextView v := by
  cases v <;> rfl

/-- C7: the randomized growth mutation (nano, the panel that feeds the
crm view) adds an integer between 50 and 199 inclusive to userCount —
with r the value of Math.floor(Math.random() * 150), hence r < 150 — and
leaves feature and infrastructure untouched. -/
theorem growth_mutation_bounded (c : LoopContext) (r : Nat) (h : r < 150) :
    c.userCount + 50 ≤ (transitionMutate .nano r c).userCount ∧
      (transitionMutate .nano r c).userCount ≤ c.userCount + 199 ∧
      (transitionMutate .nano r c).feature = c.feature ∧
      (transitionMutate .nano r c).infrastructure = c.infrastructure := by
  have hbody : (transitionMutate .nano r c).userCount = c.userCount + (r + 50) :=
    rfl
  refine ⟨?_, ?_, rfl, rfl⟩ <;> (rw [hbody]; omega)

/-- Witness for C7 at the initial context and the smallest draw. -/
theorem growth_mutation_bounded_check :
    (0 : Nat) < 150 ∧
      initialContext.userCount + 50 ≤
        (transitionMutate .nano 0 initialContext).userCount ∧
      (transitionMutate .nano 0 initialContext).userCount ≤
        initialContext.userCount + 199 := by
  refine ⟨by decide, ?_, ?_⟩
  · exact (growth_mutation_bounded initialContext 0 (by decide)).1
  · exact (growth_mutation_bounded initialContext 0 (by decide)).2.1

/-- Floor of a natural number divided by a natural number, in ℚ, is
natural division. -/
theorem floor_div_nat_cast (u n : Nat) : ⌊(u : ℚ) / (n : ℚ)⌋₊ = u / n := by
  rw [show ((n : ℚ)) = ((n : ℕ) : ℚ) from rfl, Nat.floor_div_nat,
    Nat.floor_natCast]

/-- Multiplying by the literal 0.1 and flooring is division by ten. -/
theorem floor_mul_tenth (u : Nat) : ⌊(u : ℚ) * 0.1⌋₊ = u / 10 := by
  rw [show ((0.1 : ℚ)) = 1 / 10 by norm_num, mul_one_div]
  exact floor_div_nat_cast u 10

/-- Multiplying by the literal 0.05 and flooring is division by twenty. -/
theorem floor_mul_twentieth (u : Nat) : ⌊(u : ℚ) * 0.05⌋₊ = u / 20 := by
  rw [show ((0.05 : ℚ)) = 1 / 20 by norm_num, mul_one_div]
  exact floor_div_nat_cast u 20

/-- Multiplying by the literal 0.02 and flooring is division by fifty. -/
theorem floor_mul_fiftieth (u : Nat) : ⌊(u : ℚ) * 0.02⌋₊ = u / 50 := by
  rw [show ((0.02 : ℚ)) = 1 / 50 by norm_num, mul_one_div]
  exact floor_div_nat_cast u 50

/-- C8: for every userCount u, the three derived pipeline counts of the
crm task are the floors of u times 0.1, 0.05 and 0.02, i.e. u divided by
10, 20 and 50; in particular at u = 1000 they are 100, 50 and 20. -/
theorem crm_pipeline_counts_correct :
    (∀ u : Nat, crmPipelineCounts u = (u / 10, u / 20, u / 50)) ∧
      crmPipelineCounts 1000 = (100, 50, 20) := by
  have h : ∀ u : Nat, crmPipelineCounts u = (u / 10, u / 20, u / 50) := by
    intro u
    unfold crmPipelineCounts
    rw [floor_mul_tenth, floor_mul_twentieth, floor_mul_fiftieth]
  exact ⟨h, by rw [h 1000]⟩

/-- C9 counterexample: the growth transition out of nano is randomized,
so two runs of the same transition from the same context need not agree:
the draws 0 and 1 give different userCount results from the initial
context. -/
theorem growth_mutation_not_deterministic :
    transitionMutate .nano 0 initialContext ≠
      transitionMutate .nano 1 initialContext := by
  decide

/-- C9 (amended): every transition other than the randomized nano growth
step has a context mutation that is a pure, deterministic function of the
current context: it is independent of the random draw, so two runs from
equal contexts give equal results; in particular the fixed-string
feature and infrastructure upgrades of the crm transition are
deterministic. -/
theorem fixed_mutations_deterministic (v : View) (h : v ≠ View.nano)
    (r1 r2 : Nat) (c : LoopContext) :
    transitionMutate v r1 c = transitionMutate v r2 c := by
  cases v <;> simp [transitionMutate] at h ⊢

/-- Witness for C9 (amended) at the crm transition. -/
theorem fixed_mutations_deterministic_check :
    View.crm ≠ View.nano ∧
      transitionMutate .crm 0 initialContext =
        transitionMutate .crm 7 initialContext :=
  ⟨by decide, fixed_mutations_deterministic .crm (by decide) 0 7 initialContext⟩

/-- C10: checking the infinite-loop toggle while nothing is running
immediately starts exactly one execution of the currently selected
panel's task (the change handler clicks the generate button): the task
counter increases by one, the running flag is set, continuous mode is
latched, the view is unchanged and the busy status of that view is
posted; checking it while a task runs changes only the checkbox value. -/
theorem toggle_on_behavior (s : MachState) :
    (s.isRunning = false →
        (step (.setToggle true) s).tasksStarted = s.tasksStarted + 1 ∧
          (step (.setToggle true) s).isRunning = true ∧
          (step (.setToggle true) s).currentView = s.currentView ∧
          (step (.setToggle true) s).latchedLoop = true ∧
          (step (.setToggle true) s).status =
            taskBusyStatus s.currentView s.loopContext ∧
          (step (.setToggle true) s).loopContext = s.loopContext) ∧
      (s.isRunning = true →
        step (.setToggle true) s = { s with toggleChecked := true }) := by
  constructor
  · intro hr
    simp [step, startClick, hr]
  · intro hr
    simp [step, startClick, hr]

/-- Witness for C10: one concrete state per branch of the hypothesis
(manualFailState has a task running, awaitingState does not). -/
theorem toggle_on_behavior_check :
    awaitingState.isRunning = false ∧
      (step (.setToggle true) awaitingState).tasksStarted =
        awaitingState.tasksStarted + 1 ∧
      manualFailState.isRunning = true ∧
      step (.setToggle true) manualFailState =
        { manualFailState with toggleChecked := true } := by
  refine ⟨rfl, ?_, rfl, ?_⟩
  · exact ((toggle_on_behavior awaitingState).1 rfl).1
  · exact (toggle_on_behavior manualFailState).2 rfl

end NimbusLoop
